import Mathlib

/-!
Shallow embedding of the DealScope search aggregation endpoint
(src/app/api/search/route.ts).

The endpoint is modelled as a pure function `GET` over an explicit
environment: the environment carries the configured credentials, the
current clock, the L1 in-memory cache table, the outcome of the single
Redis read the handler performs, and — for each provider adapter — the
outcome of its one HTTP request together with whether its 4-second
timeout guard fired.  Network I/O and JSON decoding are oracles: the
environment says what the wire returned, and the Lean definitions
reproduce what the TypeScript does with it.
-/

/-- Provider tag carried by every normalized result
(`source: "amazon" | "bestbuy"` in the source). -/
inductive Source where
  | amazon
  | bestbuy
deriving DecidableEq, Repr

/-- `UnifiedResult` from the source: one normalized search hit. -/
structure UnifiedResult where
  source : Source
  title : String
  price : Option String
  link : String
  thumbnail : Option String
  rating : Option Int
  reviews : Option Int
deriving DecidableEq, Repr

/-- `ProviderResult` from the source: one provider's outcome for one page.
The cached payload `{ results, hasMore }` has the same shape and reuses
this structure. -/
structure ProviderResult where
  results : List UnifiedResult
  hasMore : Bool
deriving DecidableEq, Repr

/-- The empty outcome `{ results: [], hasMore: false }` every failure
path degrades to. -/
def emptyOutcome : ProviderResult := { results := [], hasMore := false }

/-- `CACHE_TTL_MS = 60_000` (L1 TTL, milliseconds). -/
def CACHE_TTL_MS : Nat := 60000

/-- `REDIS_TTL_SECONDS = 60 * 10` (L2 TTL, seconds). -/
def REDIS_TTL_SECONDS : Nat := 60 * 10

/-- `CacheEntry` of the L1 map: absolute expiry plus payload. -/
structure CacheEntry where
  expires : Nat
  data : ProviderResult
deriving DecidableEq, Repr

/-- The L1 `Map<string, CacheEntry>`, embedded as an association list
with replace-on-set semantics. -/
abbrev L1Cache := List (String × CacheEntry)

/-- ASCII lower-casing of one character (what `toLowerCase` does on the
provider tags and queries this endpoint deals in). -/
def jsCharToLower (c : Char) : Char :=
  if 65 <= c.toNat && c.toNat <= 90 then Char.ofNat (c.toNat + 32) else c

/-- JavaScript `s.toLowerCase()` on the strings of this endpoint. -/
def jsToLower (s : String) : String := String.mk (s.data.map jsCharToLower)

/-- `makeCacheKey` from the source. -/
def makeCacheKey (q : String) (page : Int) (provider : String) : String :=
  jsToLower q ++ "::" ++ toString page ++ "::" ++ provider

/-- `makeRedisKey` from the source (versioned L2 key). -/
def makeRedisKey (q : String) (page : Int) (provider : String) : String :=
  "dealscope:search:v1:" ++ jsToLower q ++ "::" ++ toString page ++ "::" ++ provider

/-- `cache.get` on the embedded map. -/
def l1get (c : L1Cache) (k : String) : Option CacheEntry :=
  match c.find? (fun e => e.1 == k) with
  | some e => some e.2
  | none => none

/-- `cache.set` on the embedded map (replaces any entry for the key). -/
def l1set (c : L1Cache) (k : String) (e : CacheEntry) : L1Cache :=
  (k, e) :: c.filter (fun p => !(p.1 == k))

/-- The L1 lookup of the handler: `cache.get(key)` followed by the
freshness test `cached.expires > Date.now()`.  Returns the payload on a
fresh hit, `none` on a miss or an expired entry. -/
def l1Hit (c : L1Cache) (k : String) (now : Nat) : Option ProviderResult :=
  match l1get c k with
  | some e => if now < e.expires then some e.data else none
  | none => none

/-- Digits-to-number accumulator used by the `parseInt` model. -/
def digitsToNat : List Char → Nat → Nat
  | [], acc => acc
  | c :: cs, acc => digitsToNat cs (acc * 10 + (c.toNat - Char.toNat '0'))

/-- JavaScript `parseInt(s, 10)`: skip leading whitespace, read an
optional sign, then the longest digit prefix; `none` models `NaN`
(no digits). -/
def jsParseInt (s : String) : Option Int :=
  let cs := s.data.dropWhile (fun c => c.isWhitespace)
  let signed : Int × List Char :=
    match cs with
    | '-' :: r => (-1, r)
    | '+' :: r => (1, r)
    | r => (1, r)
  let ds := signed.2.takeWhile (fun c => c.isDigit)
  if ds.isEmpty then none
  else some (signed.1 * (digitsToNat ds 0 : Int))

/-- JavaScript `v || d` on an optional string (both `null` and the empty
string are falsy). -/
def jsOrDefault (v : Option String) (d : String) : String :=
  match v with
  | none => d
  | some s => if s = "" then d else s

/-- `(searchParams.get("provider") || "amazon").toLowerCase()`. -/
def resolveProviderTag (p : Option String) : String :=
  jsToLower (jsOrDefault p "amazon")

/-- `pageParam ? parseInt(pageParam, 10) || 1 : 1`:
absent or empty parameter gives 1, `NaN` or 0 gives 1 (both falsy),
any other parsed integer — negative included — passes through. -/
def resolvePage (p : Option String) : Int :=
  match p with
  | none => 1
  | some s =>
    if s = "" then 1
    else
      match jsParseInt s with
      | none => 1
      | some n => if n = 0 then 1 else n

/-- Outcome of one HTTP request as seen by an adapter: a network-level
rejection, or a response with its `res.ok` flag and a decoded JSON body
(`none` models a body on which `res.json()` throws). -/
inductive HttpOutcome (β : Type) where
  | netErr : HttpOutcome β
  | resp (ok : Bool) (body : Option β) : HttpOutcome β
deriving DecidableEq, Repr

/-- One item of the Rainforest `search_results` array, restricted to the
fields the adapter reads.  `price_raw` models `item.price?.raw`
(absent price object or absent raw field both end as `null`); `rating`
and `reviews` are `some` exactly when the JSON field passes the
`typeof === "number"` check. -/
structure AmazonItem where
  title : String
  price_raw : Option String
  link : String
  image : Option String
  rating : Option Int
  reviews : Option Int
deriving DecidableEq, Repr

/-- `json.pagination` of the Rainforest response; each field is `some`
exactly when it passes the `typeof === "number"` check. -/
structure AmazonPagination where
  current_page : Option Int
  total_pages : Option Int
deriving DecidableEq, Repr

/-- Decoded Rainforest response body. -/
structure AmazonBody where
  search_results : Option (List AmazonItem)
  pagination : Option AmazonPagination
deriving DecidableEq, Repr

/-- `fetchAmazon`: empty outcome when the credential is absent, the
request rejects, the status is not ok, or decoding throws; otherwise
maps `search_results` field-by-field and derives `hasMore` from
pagination metadata, falling back to `results.length > 0`. -/
def fetchAmazon (hasKey : Bool) (http : HttpOutcome AmazonBody) : ProviderResult :=
  if !hasKey then emptyOutcome
  else
    match http with
    | .netErr => emptyOutcome
    | .resp ok body =>
      if !ok then emptyOutcome
      else
        match body with
        | none => emptyOutcome
        | some j =>
          let results : List UnifiedResult :=
            (j.search_results.getD []).map (fun item =>
              { source := Source.amazon
                title := item.title
                price := item.price_raw
                link := item.link
                thumbnail := item.image
                rating := item.rating
                reviews := item.reviews })
          let hasMore : Bool :=
            match j.pagination with
            | some pg =>
              match pg.current_page, pg.total_pages with
              | some c, some t => decide (c < t)
              | _, _ => decide (results.length > 0)
            | none => decide (results.length > 0)
          { results := results, hasMore := hasMore }

/-- `$n.toFixed(2)` for the integral numbers of the embedding. -/
def toFixed2 (n : Int) : String := toString n ++ ".00"

/-- One product of the Best Buy `products` array, restricted to the
fields the adapter reads; numeric fields are `some` exactly when they
pass the `typeof === "number"` check. -/
structure BestBuyProduct where
  name : String
  salePrice : Option Int
  regularPrice : Option Int
  url : String
  image : Option String
  customerReviewAverage : Option Int
  customerReviewCount : Option Int
deriving DecidableEq, Repr

/-- Decoded Best Buy response body. -/
structure BestBuyBody where
  products : Option (List BestBuyProduct)
  totalPages : Option Int
  currentPage : Option Int
deriving DecidableEq, Repr

/-- `fetchBestBuy`: empty outcome on the same failure paths as
`fetchAmazon`; otherwise maps `products`, formatting the sale price in
preference to the regular price, and derives `hasMore` from
`totalPages`/`currentPage` with the requested page as the fallback
current page. -/
def fetchBestBuy (hasKey : Bool) (http : HttpOutcome BestBuyBody) (page : Int) : ProviderResult :=
  if !hasKey then emptyOutcome
  else
    match http with
    | .netErr => emptyOutcome
    | .resp ok body =>
      if !ok then emptyOutcome
      else
        match body with
        | none => emptyOutcome
        | some j =>
          let products := j.products.getD []
          let results : List UnifiedResult :=
            products.map (fun p =>
              let price : Option String :=
                match p.salePrice with
                | some sp => some ("$" ++ toFixed2 sp)
                | none =>
                  match p.regularPrice with
                  | some rp => some ("$" ++ toFixed2 rp)
                  | none => none
              { source := Source.bestbuy
                title := p.name
                price := price
                link := p.url
                thumbnail := p.image
                rating := p.customerReviewAverage
                reviews := p.customerReviewCount })
          let currentPage : Int := j.currentPage.getD page
          let hasMore : Bool :=
            match j.totalPages with
            | some t => decide (currentPage < t)
            | none => decide (results.length > 0)
          { results := results, hasMore := hasMore }

/-- Outcome of the one `redis.get` the handler performs: the read threw
(store unreachable / misconfigured), missed, or hit with a payload. -/
inductive RedisRead where
  | readErr
  | miss
  | hit (p : ProviderResult)
deriving DecidableEq, Repr

/-- The request parameters the handler reads from the URL; `none` is an
absent parameter. -/
structure SearchRequest where
  q : Option String
  pageParam : Option String
  providerParam : Option String
deriving DecidableEq, Repr

/-- The environment one `GET` call runs against. -/
structure Env where
  rainforestKey : Bool
  bestbuyKey : Bool
  now : Nat
  l1 : L1Cache
  redisRead : RedisRead
  amazonHttp : HttpOutcome AmazonBody
  amazonTimedOut : Bool
  bestbuyHttp : HttpOutcome BestBuyBody
  bestbuyTimedOut : Bool
deriving DecidableEq, Repr

/-- Response body: a success payload (results, hasMore, cached,
cacheLayer) or an error object. -/
inductive Body where
  | payload (results : List UnifiedResult) (hasMore : Bool) (cached : Bool) (cacheLayer : String)
  | errMsg (msg : String)
deriving DecidableEq, Repr

/-- Results of a body (empty for error bodies). -/
def Body.resultsOf : Body → List UnifiedResult
  | .payload r _ _ _ => r
  | .errMsg _ => []

/-- `hasMore` of a body (false for error bodies). -/
def Body.hasMoreOf : Body → Bool
  | .payload _ h _ _ => h
  | .errMsg _ => false

/-- `cacheLayer` of a body (empty for error bodies). -/
def Body.layerOf : Body → String
  | .payload _ _ _ l => l
  | .errMsg _ => ""

/-- Everything observable about one `GET` call: HTTP status and body,
the L1 table afterwards, the payload passed to `redis.set` (if that call
was made), and whether the cache lookups and the adapter functions ran. -/
structure GetOutput where
  status : Nat
  body : Body
  l1After : L1Cache
  redisSetArg : Option ProviderResult
  didL1Lookup : Bool
  didRedisGet : Bool
  amazonCalled : Bool
  bestbuyCalled : Bool
deriving DecidableEq, Repr

/-- An early error-JSON exit with the given status:
nothing was looked up, called, or written. -/
def rejected (status : Nat) (msg : String) (env : Env) : GetOutput :=
  { status := status
    body := Body.errMsg msg
    l1After := env.l1
    redisSetArg := none
    didL1Lookup := false
    didRedisGet := false
    amazonCalled := false
    bestbuyCalled := false }

/-- `withTimeout(fetchAmazon(q, page), 4000).catch(() => empty)`: the
guard's rejection is replaced by the empty outcome; otherwise the
adapter's own result stands. -/
def guardedAmazon (env : Env) : ProviderResult :=
  if env.amazonTimedOut then emptyOutcome
  else fetchAmazon env.rainforestKey env.amazonHttp

/-- `withTimeout(fetchBestBuy(q, page), 4000).catch(() => empty)`. -/
def guardedBestBuy (env : Env) (page : Int) : ProviderResult :=
  if env.bestbuyTimedOut then emptyOutcome
  else fetchBestBuy env.bestbuyKey env.bestbuyHttp page

/-- The `providerPromises` array: the guarded calls of the active
providers, in push order (Amazon first, then Best Buy). -/
def activeOutcomes (env : Env) (useAmazon useBestBuy : Bool) (page : Int) : List ProviderResult :=
  (if useAmazon then [guardedAmazon env] else []) ++
    (if useBestBuy then [guardedBestBuy env page] else [])

/-- The merge of `Promise.all`'s outcomes:
`flatMap` of the result lists, `slice(0, 30)`, and `some`-over-hasMore. -/
def mergedPayload (outs : List ProviderResult) : ProviderResult :=
  { results := (outs.map (fun p => p.results)).flatten.take 30
    hasMore := outs.any (fun p => p.hasMore) }

/-- The live-fetch stage of the handler (reached after both cache tiers
miss): fan out to the active providers, merge, write L1 unconditionally,
write L2 only for a non-empty result list, respond 200 "LIVE". -/
def liveStage (env : Env) (q : String) (page : Int) (providerParam : String) : GetOutput :=
  let useAmazon := providerParam == "amazon" || providerParam == "all"
  let useBestBuy := providerParam == "bestbuy" || providerParam == "all"
  let outs := activeOutcomes env useAmazon useBestBuy page
  let payload := mergedPayload outs
  let cacheKey := makeCacheKey q page providerParam
  { status := 200
    body := Body.payload payload.results payload.hasMore false "LIVE"
    l1After := l1set env.l1 cacheKey { expires := env.now + CACHE_TTL_MS, data := payload }
    redisSetArg := if payload.results.length > 0 then some payload else none
    didL1Lookup := true
    didRedisGet := true
    amazonCalled := useAmazon
    bestbuyCalled := useBestBuy }

/-- The handler `GET`.  Stages in source order: parameter resolution,
`!q` rejection, no-credentials rejection, L1 lookup, Redis lookup (a
read error falls through like a miss), live fetch. -/
def GET (req : SearchRequest) (env : Env) : GetOutput :=
  let providerParam := resolveProviderTag req.providerParam
  let page := resolvePage req.pageParam
  match req.q with
  | none => rejected 400 "Missing search term" env
  | some q =>
    if q = "" then rejected 400 "Missing search term" env
    else if !env.rainforestKey && !env.bestbuyKey then
      rejected 500 "Server is not configured with any provider API keys" env
    else
      let cacheKey := makeCacheKey q page providerParam
      match l1Hit env.l1 cacheKey env.now with
      | some data =>
        { status := 200
          body := Body.payload data.results data.hasMore true "L1"
          l1After := env.l1
          redisSetArg := none
          didL1Lookup := true
          didRedisGet := false
          amazonCalled := false
          bestbuyCalled := false }
      | none =>
        match env.redisRead with
        | .hit p =>
          { status := 200
            body := Body.payload p.results p.hasMore true "REDIS"
            l1After := l1set env.l1 cacheKey { expires := env.now + CACHE_TTL_MS, data := p }
            redisSetArg := none
            didL1Lookup := true
            didRedisGet := true
            amazonCalled := false
            bestbuyCalled := false }
        | .readErr => liveStage env q page providerParam
        | .miss => liveStage env q page providerParam

/-- The Amazon guarded call fails: its timeout guard fired, the HTTP
request rejected at network level, or the response carried a
non-success status. -/
def amazonGuardFails (env : Env) : Prop :=
  env.amazonTimedOut = true ∨ env.amazonHttp = HttpOutcome.netErr ∨
    ∃ b, env.amazonHttp = HttpOutcome.resp false b

/-- The Best Buy guarded call fails (same failure modes). -/
def bestbuyGuardFails (env : Env) : Prop :=
  env.bestbuyTimedOut = true ∨ env.bestbuyHttp = HttpOutcome.netErr ∨
    ∃ b, env.bestbuyHttp = HttpOutcome.resp false b

/-- Concrete Rainforest item used by witnesses. -/
def sampleAmazonItem : AmazonItem :=
  { title := "Echo", price_raw := some "$9.99", link := "a", image := none,
    rating := some 4, reviews := some 12 }

/-- Concrete Best Buy product used by witnesses. -/
def sampleBestBuyProduct : BestBuyProduct :=
  { name := "TV", salePrice := some 5, regularPrice := none, url := "u",
    image := none, customerReviewAverage := none, customerReviewCount := none }

/-- A healthy baseline environment for witnesses: both credentials set,
cold caches, Amazon answering with zero hits, Best Buy answering with
one hit and more pages. -/
def baseEnv : Env :=
  { rainforestKey := true, bestbuyKey := true, now := 1000, l1 := [],
    redisRead := RedisRead.miss,
    amazonHttp := HttpOutcome.resp true
      (some { search_results := some [], pagination := none }),
    amazonTimedOut := false,
    bestbuyHttp := HttpOutcome.resp true
      (some { products := some [sampleBestBuyProduct], totalPages := some 4,
              currentPage := some 1 }),
    bestbuyTimedOut := false }

/-- Query only, every optional parameter absent. -/
def reqTv : SearchRequest :=
  { q := some "tv", pageParam := none, providerParam := none }

/-- Query with explicit provider "all". -/
def reqTvAll : SearchRequest :=
  { q := some "tv", pageParam := none, providerParam := some "all" }

/-- A payload an L2 hit returns in witnesses. -/
def hitPayload : ProviderResult := { results := [], hasMore := true }

/-- Environment whose Redis read hits with `hitPayload`. -/
def redisHitEnv : Env := { baseEnv with redisRead := RedisRead.hit hitPayload }

/-- `redisHitEnv` after the first request's L1 backfill (the environment
of the immediately repeated identical request). -/
def redisHitEnvAfter : Env := { redisHitEnv with l1 := (GET reqTv redisHitEnv).l1After }

/-- Environment with only the Best Buy credential configured. -/
def bestbuyOnlyEnv : Env := { baseEnv with rainforestKey := false }

/-- A Rainforest body with one hit and no pagination metadata. -/
def oneHitAmazonBody : AmazonBody :=
  { search_results := some [sampleAmazonItem], pagination := none }

/-- Environment whose Amazon adapter answers with one hit. -/
def amazonOneHitEnv : Env :=
  { baseEnv with amazonHttp := HttpOutcome.resp true (some oneHitAmazonBody) }

/-- Helper: once the query is non-falsy, at least one credential is set
and both cache tiers miss (a Redis read error counts as a miss), the
handler is exactly its live-fetch stage. -/
theorem GET_live_eq (req : SearchRequest) (env : Env) (q : String)
    (hq : req.q = some q) (hne : q ≠ "")
    (hkeys : env.rainforestKey = true ∨ env.bestbuyKey = true)
    (hcold : l1Hit env.l1
      (makeCacheKey q (resolvePage req.pageParam) (resolveProviderTag req.providerParam))
      env.now = none)
    (hredis : env.redisRead = RedisRead.miss ∨ env.redisRead = RedisRead.readErr) :
    GET req env = liveStage env q (resolvePage req.pageParam) (resolveProviderTag req.providerParam) := by
  have hk : (!env.rainforestKey && !env.bestbuyKey) = false := by
    rcases hkeys with h | h <;> simp [h]
  rcases hredis with h | h <;> simp [GET, hq, hne, hk, hcold, h]

/-- Helper: a failed Amazon guarded call degrades to the empty outcome. -/
theorem guardedAmazon_eq_empty (env : Env) (h : amazonGuardFails env) :
    guardedAmazon env = emptyOutcome := by
  rcases h with h | h | ⟨b, h⟩
  · simp [guardedAmazon, h]
  · cases ht : env.amazonTimedOut <;> cases hk : env.rainforestKey <;>
      simp [guardedAmazon, fetchAmazon, h, ht, hk]
  · cases ht : env.amazonTimedOut <;> cases hk : env.rainforestKey <;>
      simp [guardedAmazon, fetchAmazon, h, ht, hk]

/-- Helper: a failed Best Buy guarded call degrades to the empty outcome. -/
theorem guardedBestBuy_eq_empty (env : Env) (page : Int) (h : bestbuyGuardFails env) :
    guardedBestBuy env page = emptyOutcome := by
  rcases h with h | h | ⟨b, h⟩
  · simp [guardedBestBuy, h]
  · cases ht : env.bestbuyTimedOut <;> cases hk : env.bestbuyKey <;>
      simp [guardedBestBuy, fetchBestBuy, h, ht, hk]
  · cases ht : env.bestbuyTimedOut <;> cases hk : env.bestbuyKey <;>
      simp [guardedBestBuy, fetchBestBuy, h, ht, hk]

/-- Claim C1: for every request reaching the live-fetch stage with
provider scope "all", if one provider's guarded call fails (timeout,
network error, or non-success HTTP status), that provider is replaced by
the empty outcome, the other provider's results still appear in the
merged payload (up to the cap), and the endpoint returns HTTP 200. -/
theorem provider_isolation_live (req : SearchRequest) (env : Env) (q : String)
    (hq : req.q = some q) (hne : q ≠ "")
    (hkeys : env.rainforestKey = true ∨ env.bestbuyKey = true)
    (hcold : l1Hit env.l1
      (makeCacheKey q (resolvePage req.pageParam) (resolveProviderTag req.providerParam))
      env.now = none)
    (hredis : env.redisRead = RedisRead.miss ∨ env.redisRead = RedisRead.readErr)
    (hall : resolveProviderTag req.providerParam = "all") :
    (amazonGuardFails env →
      guardedAmazon env = emptyOutcome ∧
      (GET req env).status = 200 ∧
      (GET req env).body =
        Body.payload ((guardedBestBuy env (resolvePage req.pageParam)).results.take 30)
          (guardedBestBuy env (resolvePage req.pageParam)).hasMore false "LIVE") ∧
    (bestbuyGuardFails env →
      guardedBestBuy env (resolvePage req.pageParam) = emptyOutcome ∧
      (GET req env).status = 200 ∧
      (GET req env).body =
        Body.payload ((guardedAmazon env).results.take 30)
          (guardedAmazon env).hasMore false "LIVE") := by
  have hG := GET_live_eq req env q hq hne hkeys hcold hredis
  rw [hall] at hG
  constructor
  · intro hfail
    have hA := guardedAmazon_eq_empty env hfail
    refine ⟨hA, ?_, ?_⟩ <;>
      simp [hG, liveStage, activeOutcomes, mergedPayload, hA, emptyOutcome]
  · intro hfail
    have hB := guardedBestBuy_eq_empty env (resolvePage req.pageParam) hfail
    refine ⟨hB, ?_, ?_⟩ <;>
      simp [hG, liveStage, activeOutcomes, mergedPayload, hB, emptyOutcome]

/-- Witness for C1: concrete request with provider "all", Amazon timed
out, Best Buy healthy with one result. -/
theorem provider_isolation_live_witness :
    guardedAmazon { baseEnv with amazonTimedOut := true } = emptyOutcome ∧
    (GET reqTvAll { baseEnv with amazonTimedOut := true }).status = 200 ∧
    (GET reqTvAll { baseEnv with amazonTimedOut := true }).body =
      Body.payload
        ((guardedBestBuy { baseEnv with amazonTimedOut := true } 1).results.take 30)
        (guardedBestBuy { baseEnv with amazonTimedOut := true } 1).hasMore false "LIVE" :=
  (provider_isolation_live reqTvAll { baseEnv with amazonTimedOut := true } "tv"
    rfl (by decide) (Or.inl rfl) rfl (Or.inl rfl) (by decide)).1 (Or.inl rfl)

/-- Helper: the guarded L2 write stores the payload exactly when its
result list is non-empty. -/
theorem redisArg_iff (p : ProviderResult) :
    ((if p.results.length > 0 then some p else none) = some p ↔ p.results ≠ []) := by
  rcases h : p.results with _ | ⟨a, l⟩ <;> simp [h]

/-- Claim C2: every live-merged payload is the concatenation of the
active providers' result lists in call order, truncated after
concatenation to at most 30 entries kept from the front, so its length
is at most 30. -/
theorem merged_results_cap (req : SearchRequest) (env : Env) (q : String)
    (hq : req.q = some q) (hne : q ≠ "")
    (hkeys : env.rainforestKey = true ∨ env.bestbuyKey = true)
    (hcold : l1Hit env.l1
      (makeCacheKey q (resolvePage req.pageParam) (resolveProviderTag req.providerParam))
      env.now = none)
    (hredis : env.redisRead = RedisRead.miss ∨ env.redisRead = RedisRead.readErr) :
    Body.resultsOf (GET req env).body =
      ((activeOutcomes env
          (resolveProviderTag req.providerParam == "amazon" ||
            resolveProviderTag req.providerParam == "all")
          (resolveProviderTag req.providerParam == "bestbuy" ||
            resolveProviderTag req.providerParam == "all")
          (resolvePage req.pageParam)).map (fun p => p.results)).flatten.take 30 ∧
    (Body.resultsOf (GET req env).body).length ≤ 30 := by
  have hG := GET_live_eq req env q hq hne hkeys hcold hredis
  rw [hG]
  refine ⟨rfl, ?_⟩
  simp only [liveStage, mergedPayload, Body.resultsOf, List.length_take]
  omega

/-- Witness for C2 at a concrete two-provider live request. -/
theorem merged_results_cap_witness :
    Body.resultsOf (GET reqTvAll baseEnv).body =
      ((activeOutcomes baseEnv
          (resolveProviderTag reqTvAll.providerParam == "amazon" ||
            resolveProviderTag reqTvAll.providerParam == "all")
          (resolveProviderTag reqTvAll.providerParam == "bestbuy" ||
            resolveProviderTag reqTvAll.providerParam == "all")
          (resolvePage reqTvAll.pageParam)).map (fun p => p.results)).flatten.take 30 ∧
    (Body.resultsOf (GET reqTvAll baseEnv).body).length ≤ 30 :=
  merged_results_cap reqTvAll baseEnv "tv" rfl (by decide) (Or.inl rfl) rfl (Or.inl rfl)

/-- Claim C7: the merged hasMore flag is true exactly when at least one
contributing provider's outcome reported hasMore, independent of any
truncation of that provider's results. -/
theorem merged_hasMore_iff (req : SearchRequest) (env : Env) (q : String)
    (hq : req.q = some q) (hne : q ≠ "")
    (hkeys : env.rainforestKey = true ∨ env.bestbuyKey = true)
    (hcold : l1Hit env.l1
      (makeCacheKey q (resolvePage req.pageParam) (resolveProviderTag req.providerParam))
      env.now = none)
    (hredis : env.redisRead = RedisRead.miss ∨ env.redisRead = RedisRead.readErr) :
    (Body.hasMoreOf (GET req env).body = true ↔
      ∃ o ∈ activeOutcomes env
          (resolveProviderTag req.providerParam == "amazon" ||
            resolveProviderTag req.providerParam == "all")
          (resolveProviderTag req.providerParam == "bestbuy" ||
            resolveProviderTag req.providerParam == "all")
          (resolvePage req.pageParam), o.hasMore = true) := by
  have hG := GET_live_eq req env q hq hne hkeys hcold hredis
  rw [hG]
  simp [liveStage, mergedPayload, Body.hasMoreOf, List.any_eq_true]

/-- Witness for C7 at a concrete two-provider live request. -/
theorem merged_hasMore_iff_witness :
    (Body.hasMoreOf (GET reqTvAll baseEnv).body = true ↔
      ∃ o ∈ activeOutcomes baseEnv
          (resolveProviderTag reqTvAll.providerParam == "amazon" ||
            resolveProviderTag reqTvAll.providerParam == "all")
          (resolveProviderTag reqTvAll.providerParam == "bestbuy" ||
            resolveProviderTag reqTvAll.providerParam == "all")
          (resolvePage reqTvAll.pageParam), o.hasMore = true) :=
  merged_hasMore_iff reqTvAll baseEnv "tv" rfl (by decide) (Or.inl rfl) rfl (Or.inl rfl)

/-- Claim C5: after every successful live fetch the merged payload is
written to L1 unconditionally (empty included), and the L2 write is made
exactly when the merged result list is non-empty. -/
theorem cache_write_policy (req : SearchRequest) (env : Env) (q : String)
    (hq : req.q = some q) (hne : q ≠ "")
    (hkeys : env.rainforestKey = true ∨ env.bestbuyKey = true)
    (hcold : l1Hit env.l1
      (makeCacheKey q (resolvePage req.pageParam) (resolveProviderTag req.providerParam))
      env.now = none)
    (hredis : env.redisRead = RedisRead.miss ∨ env.redisRead = RedisRead.readErr) :
    (GET req env).l1After =
      l1set env.l1
        (makeCacheKey q (resolvePage req.pageParam) (resolveProviderTag req.providerParam))
        { expires := env.now + CACHE_TTL_MS
          data := mergedPayload (activeOutcomes env
            (resolveProviderTag req.providerParam == "amazon" ||
              resolveProviderTag req.providerParam == "all")
            (resolveProviderTag req.providerParam == "bestbuy" ||
              resolveProviderTag req.providerParam == "all")
            (resolvePage req.pageParam)) } ∧
    ((GET req env).redisSetArg =
        some (mergedPayload (activeOutcomes env
          (resolveProviderTag req.providerParam == "amazon" ||
            resolveProviderTag req.providerParam == "all")
          (resolveProviderTag req.providerParam == "bestbuy" ||
            resolveProviderTag req.providerParam == "all")
          (resolvePage req.pageParam))) ↔
      (mergedPayload (activeOutcomes env
        (resolveProviderTag req.providerParam == "amazon" ||
          resolveProviderTag req.providerParam == "all")
        (resolveProviderTag req.providerParam == "bestbuy" ||
          resolveProviderTag req.providerParam == "all")
        (resolvePage req.pageParam))).results ≠ []) := by
  have hG := GET_live_eq req env q hq hne hkeys hcold hredis
  rw [hG]
  exact ⟨rfl, redisArg_iff _⟩

/-- Witness for C5: an empty live merge (Amazon answering zero hits,
scope defaulted to Amazon) is written to L1 but not to L2. -/
theorem cache_write_policy_witness :
    (GET reqTv baseEnv).l1After =
      l1set baseEnv.l1
        (makeCacheKey "tv" (resolvePage reqTv.pageParam) (resolveProviderTag reqTv.providerParam))
        { expires := baseEnv.now + CACHE_TTL_MS
          data := mergedPayload (activeOutcomes baseEnv
            (resolveProviderTag reqTv.providerParam == "amazon" ||
              resolveProviderTag reqTv.providerParam == "all")
            (resolveProviderTag reqTv.providerParam == "bestbuy" ||
              resolveProviderTag reqTv.providerParam == "all")
            (resolvePage reqTv.pageParam)) } ∧
    ((GET reqTv baseEnv).redisSetArg =
        some (mergedPayload (activeOutcomes baseEnv
          (resolveProviderTag reqTv.providerParam == "amazon" ||
            resolveProviderTag reqTv.providerParam == "all")
          (resolveProviderTag reqTv.providerParam == "bestbuy" ||
            resolveProviderTag reqTv.providerParam == "all")
          (resolvePage reqTv.pageParam))) ↔
      (mergedPayload (activeOutcomes baseEnv
        (resolveProviderTag reqTv.providerParam == "amazon" ||
          resolveProviderTag reqTv.providerParam == "all")
        (resolveProviderTag reqTv.providerParam == "bestbuy" ||
          resolveProviderTag reqTv.providerParam == "all")
        (resolvePage reqTv.pageParam))).results ≠ []) :=
  cache_write_policy reqTv baseEnv "tv" rfl (by decide) (Or.inl rfl) rfl (Or.inl rfl)

/-- Helper: looking up the key just written to L1 finds the new entry,
subject only to the freshness test. -/
theorem l1Hit_l1set (c : L1Cache) (k : String) (e : CacheEntry) (now : Nat) :
    l1Hit (l1set c k e) k now = if now < e.expires then some e.data else none := by
  simp [l1Hit, l1get, l1set, List.find?_cons]

/-- Claim C6: on an L2 hit after an L1 miss, L1 is backfilled for the
same key with the L2 payload and a fresh local expiry (now plus 60
seconds), so an immediately repeated identical request is served from L1
(no Redis read, no provider call). -/
theorem l2_hit_backfills_l1 (req : SearchRequest) (env : Env) (q : String) (p : ProviderResult)
    (hq : req.q = some q) (hne : q ≠ "")
    (hkeys : env.rainforestKey = true ∨ env.bestbuyKey = true)
    (hcold : l1Hit env.l1
      (makeCacheKey q (resolvePage req.pageParam) (resolveProviderTag req.providerParam))
      env.now = none)
    (hhit : env.redisRead = RedisRead.hit p) :
    (GET req env).l1After =
      l1set env.l1
        (makeCacheKey q (resolvePage req.pageParam) (resolveProviderTag req.providerParam))
        { expires := env.now + CACHE_TTL_MS, data := p } ∧
    (GET req { env with l1 := (GET req env).l1After }).body =
      Body.payload p.results p.hasMore true "L1" ∧
    (GET req { env with l1 := (GET req env).l1After }).didRedisGet = false ∧
    (GET req { env with l1 := (GET req env).l1After }).amazonCalled = false ∧
    (GET req { env with l1 := (GET req env).l1After }).bestbuyCalled = false := by
  have hk : (!env.rainforestKey && !env.bestbuyKey) = false := by
    rcases hkeys with h | h <;> simp [h]
  have h1 : (GET req env).l1After =
      l1set env.l1
        (makeCacheKey q (resolvePage req.pageParam) (resolveProviderTag req.providerParam))
        { expires := env.now + CACHE_TTL_MS, data := p } := by
    simp [GET, hq, hne, hk, hcold, hhit]
  refine ⟨h1, ?_, ?_, ?_, ?_⟩ <;>
    (rw [h1]; simp [GET, hq, hne, hk, l1Hit_l1set, CACHE_TTL_MS])

/-- Witness for C6 at a concrete L2 hit. -/
theorem l2_hit_backfills_l1_witness :
    (GET reqTv redisHitEnv).l1After =
      l1set redisHitEnv.l1
        (makeCacheKey "tv" (resolvePage reqTv.pageParam) (resolveProviderTag reqTv.providerParam))
        { expires := redisHitEnv.now + CACHE_TTL_MS, data := hitPayload } ∧
    (GET reqTv redisHitEnvAfter).body =
      Body.payload hitPayload.results hitPayload.hasMore true "L1" ∧
    (GET reqTv redisHitEnvAfter).didRedisGet = false ∧
    (GET reqTv redisHitEnvAfter).amazonCalled = false ∧
    (GET reqTv redisHitEnvAfter).bestbuyCalled = false :=
  l2_hit_backfills_l1 reqTv redisHitEnv "tv" hitPayload rfl (by decide) (Or.inl rfl) rfl rfl

/-- Counterexample to C3: a whitespace-only query is not rejected — the
handler proceeds to both cache lookups and to the provider fan-out and
answers 200, because the code only tests JavaScript falsiness of `q`. -/
theorem whitespace_query_not_rejected :
    (GET { q := some " ", pageParam := none, providerParam := none } baseEnv).status = 200 ∧
    (GET { q := some " ", pageParam := none, providerParam := none } baseEnv).didL1Lookup = true ∧
    (GET { q := some " ", pageParam := none, providerParam := none } baseEnv).didRedisGet = true ∧
    (GET { q := some " ", pageParam := none, providerParam := none } baseEnv).amazonCalled = true := by
  decide

/-- Claim C3 (amended): for every request whose q parameter is absent or
the empty string, the endpoint returns HTTP 400 with body error
"Missing search term" and makes no cache lookup and no provider call;
whitespace-only queries are not covered (they proceed normally). -/
theorem empty_query_rejected (req : SearchRequest) (env : Env)
    (h : req.q = none ∨ req.q = some "") :
    GET req env = rejected 400 "Missing search term" env ∧
    (GET req env).status = 400 ∧
    (GET req env).didL1Lookup = false ∧ (GET req env).didRedisGet = false ∧
    (GET req env).amazonCalled = false ∧ (GET req env).bestbuyCalled = false ∧
    (GET req env).l1After = env.l1 ∧ (GET req env).redisSetArg = none := by
  have h1 : GET req env = rejected 400 "Missing search term" env := by
    rcases h with h | h <;> simp [GET, h]
  rw [h1]
  exact ⟨rfl, rfl, rfl, rfl, rfl, rfl, rfl, rfl⟩

/-- Witness for C3 (amended) at an absent query parameter. -/
theorem empty_query_rejected_witness :
    GET { q := none, pageParam := none, providerParam := none } baseEnv =
      rejected 400 "Missing search term" baseEnv ∧
    (GET { q := none, pageParam := none, providerParam := none } baseEnv).status = 400 ∧
    (GET { q := none, pageParam := none, providerParam := none } baseEnv).didL1Lookup = false ∧
    (GET { q := none, pageParam := none, providerParam := none } baseEnv).didRedisGet = false ∧
    (GET { q := none, pageParam := none, providerParam := none } baseEnv).amazonCalled = false ∧
    (GET { q := none, pageParam := none, providerParam := none } baseEnv).bestbuyCalled = false ∧
    (GET { q := none, pageParam := none, providerParam := none } baseEnv).l1After = baseEnv.l1 ∧
    (GET { q := none, pageParam := none, providerParam := none } baseEnv).redisSetArg = none :=
  empty_query_rejected { q := none, pageParam := none, providerParam := none } baseEnv (Or.inl rfl)

/-- Counterexample to C4: a response served from the L2 tier carries
cacheLayer "REDIS", which is not the claimed "L2" and lies outside the
claimed value set. -/
theorem l2_hit_layer_is_redis :
    (GET reqTv redisHitEnv).status = 200 ∧
    (GET reqTv redisHitEnv).didRedisGet = true ∧
    Body.layerOf (GET reqTv redisHitEnv).body = "REDIS" ∧
    ¬(Body.layerOf (GET reqTv redisHitEnv).body = "L1" ∨
      Body.layerOf (GET reqTv redisHitEnv).body = "L2" ∨
      Body.layerOf (GET reqTv redisHitEnv).body = "LIVE") := by
  decide

/-- Claim C4 (amended): every successful (200) response carries a
cacheLayer among "L1", "REDIS", "LIVE"; in particular a response served
from the L2 tier carries "REDIS" (not "L2"). -/
theorem cacheLayer_value_set (req : SearchRequest) (env : Env) :
    ((GET req env).status = 200 →
      Body.layerOf (GET req env).body = "L1" ∨
      Body.layerOf (GET req env).body = "REDIS" ∨
      Body.layerOf (GET req env).body = "LIVE") ∧
    (∀ qs pl, req.q = some qs → qs ≠ "" →
      (env.rainforestKey = true ∨ env.bestbuyKey = true) →
      l1Hit env.l1
        (makeCacheKey qs (resolvePage req.pageParam) (resolveProviderTag req.providerParam))
        env.now = none →
      env.redisRead = RedisRead.hit pl →
      (GET req env).body = Body.payload pl.results pl.hasMore true "REDIS") := by
  constructor
  · simp only [GET]
    repeat' split
    all_goals simp [rejected, liveStage, Body.layerOf]
  · intro qs pl hq hne hkeys hcold hhit
    have hk : (!env.rainforestKey && !env.bestbuyKey) = false := by
      rcases hkeys with h | h <;> simp [h]
    simp [GET, hq, hne, hk, hcold, hhit]

/-- Witness for C4 (amended) at a concrete L2 hit. -/
theorem cacheLayer_value_set_witness :
    (GET reqTv redisHitEnv).body =
      Body.payload hitPayload.results hitPayload.hasMore true "REDIS" :=
  (cacheLayer_value_set reqTv redisHitEnv).2 "tv" hitPayload rfl (by decide)
    (Or.inl rfl) rfl rfl

/-- Counterexample to C8: a page parameter of "-5" parses to the
negative integer -5, which is used as-is in the L1 cache key — the page
actually used is not a positive integer. -/
theorem negative_page_used :
    resolvePage (some "-5") = -5 ∧
    ¬(0 < resolvePage (some "-5")) ∧
    (GET { q := some "tv", pageParam := some "-5", providerParam := none } baseEnv).l1After =
      [(makeCacheKey "tv" (-5) "amazon",
        { expires := baseEnv.now + CACHE_TTL_MS, data := emptyOutcome })] := by
  decide

/-- Claim C8 (amended): the page used is never 0; it defaults to 1 when
the parameter is absent, empty, unparsable, or parses to 0, and
otherwise equals the parsed integer, which may be negative. -/
theorem page_resolution (p : Option String) :
    resolvePage p ≠ 0 ∧
    (p = none → resolvePage p = 1) ∧
    (∀ s, p = some s → jsParseInt s = none → resolvePage p = 1) ∧
    (∀ s, p = some s → jsParseInt s = some 0 → resolvePage p = 1) ∧
    (∀ s n, p = some s → jsParseInt s = some n → n ≠ 0 → resolvePage p = n) := by
  refine ⟨?_, ?_, ?_, ?_, ?_⟩
  · rcases p with _ | s
    · simp [resolvePage]
    · by_cases hs : s = ""
      · simp [resolvePage, hs]
      · rcases hj : jsParseInt s with _ | n
        · simp [resolvePage, hs, hj]
        · by_cases hn : n = 0 <;> simp [resolvePage, hs, hj, hn]
  · intro h
    simp [h, resolvePage]
  · intro s h hj
    subst h
    by_cases hs : s = ""
    · simp [resolvePage, hs]
    · simp [resolvePage, hs, hj]
  · intro s h hj
    subst h
    have hs : s ≠ "" := by
      intro h0
      rw [h0] at hj
      exact Option.noConfusion (hj : (none : Option Int) = some 0)
    simp [resolvePage, hs, hj]
  · intro s n h hj hn
    subst h
    have hs : s ≠ "" := by
      intro h0
      rw [h0] at hj
      exact Option.noConfusion (hj : (none : Option Int) = some n)
    simp [resolvePage, hs, hj, hn]

/-- Witness for C8 (amended): "7" parses and is used; it is nonzero. -/
theorem page_resolution_witness :
    resolvePage (some "7") = 7 ∧ resolvePage (some "7") ≠ 0 :=
  ⟨(page_resolution (some "7")).2.2.2.2 "7" 7 rfl rfl (by decide),
    (page_resolution (some "7")).1⟩

/-- Counterexample to C9: with only the Best Buy credential configured
and the provider parameter absent, the scope is still "amazon" — the
configured provider (Best Buy, which would return a result) is not
called, and the payload comes out empty. -/
theorem default_provider_ignores_credentials :
    bestbuyOnlyEnv.rainforestKey = false ∧
    bestbuyOnlyEnv.bestbuyKey = true ∧
    (fetchBestBuy bestbuyOnlyEnv.bestbuyKey bestbuyOnlyEnv.bestbuyHttp 1).results ≠ [] ∧
    (GET reqTv bestbuyOnlyEnv).bestbuyCalled = false ∧
    (GET reqTv bestbuyOnlyEnv).amazonCalled = true ∧
    (GET reqTv bestbuyOnlyEnv).body = Body.payload [] false false "LIVE" := by
  decide

/-- Claim C9 (amended): when the provider parameter is absent (or
empty), the provider scope is always "amazon", regardless of which
credentials are configured; at the live stage only the Amazon adapter
runs. -/
theorem default_provider_is_amazon (req : SearchRequest) (env : Env) (q : String)
    (hq : req.q = some q) (hne : q ≠ "")
    (hkeys : env.rainforestKey = true ∨ env.bestbuyKey = true)
    (hcold : l1Hit env.l1
      (makeCacheKey q (resolvePage req.pageParam) (resolveProviderTag req.providerParam))
      env.now = none)
    (hredis : env.redisRead = RedisRead.miss ∨ env.redisRead = RedisRead.readErr)
    (hprov : req.providerParam = none ∨ req.providerParam = some "") :
    resolveProviderTag req.providerParam = "amazon" ∧
    (GET req env).amazonCalled = true ∧
    (GET req env).bestbuyCalled = false := by
  have htag : resolveProviderTag req.providerParam = "amazon" := by
    rcases hprov with h | h <;> (rw [h]; rfl)
  have hG := GET_live_eq req env q hq hne hkeys hcold hredis
  rw [htag] at hG
  refine ⟨htag, ?_, ?_⟩ <;> (rw [hG]; rfl)

/-- Witness for C9 (amended): Best Buy-only credentials, provider
parameter absent. -/
theorem default_provider_is_amazon_witness :
    resolveProviderTag reqTv.providerParam = "amazon" ∧
    (GET reqTv bestbuyOnlyEnv).amazonCalled = true ∧
    (GET reqTv bestbuyOnlyEnv).bestbuyCalled = false :=
  default_provider_is_amazon reqTv bestbuyOnlyEnv "tv" rfl (by decide) (Or.inr rfl)
    rfl (Or.inl rfl) (Or.inl rfl)

/-- Counterexample to C10: the empty-string provider parameter
lower-cases to a value outside the known set, yet the request is not
processed with an empty provider set — the JavaScript falsiness default
kicks in first, Amazon is called, and the payload is non-empty. -/
theorem empty_provider_tag_still_calls_amazon :
    jsToLower "" ≠ "amazon" ∧ jsToLower "" ≠ "bestbuy" ∧ jsToLower "" ≠ "all" ∧
    (GET { q := some "tv", pageParam := none, providerParam := some "" } amazonOneHitEnv).amazonCalled = true ∧
    Body.resultsOf (GET { q := some "tv", pageParam := none, providerParam := some "" } amazonOneHitEnv).body ≠ [] := by
  decide

/-- Claim C10 (amended): for every request with a non-empty query, a
NON-EMPTY provider parameter whose lower-casing is none of "amazon",
"bestbuy", "all", at least one configured credential and cold caches,
no provider call is made and the endpoint answers 200 with the empty
live payload, which is stored in L1 under that provider's key and not
written to L2. -/
theorem unknown_provider_empty_live (req : SearchRequest) (env : Env) (q s : String)
    (hq : req.q = some q) (hne : q ≠ "")
    (hprov : req.providerParam = some s) (hsne : s ≠ "")
    (hsa : jsToLower s ≠ "amazon") (hsb : jsToLower s ≠ "bestbuy") (hsall : jsToLower s ≠ "all")
    (hkeys : env.rainforestKey = true ∨ env.bestbuyKey = true)
    (hcold : l1Hit env.l1
      (makeCacheKey q (resolvePage req.pageParam) (resolveProviderTag req.providerParam))
      env.now = none)
    (hredis : env.redisRead = RedisRead.miss ∨ env.redisRead = RedisRead.readErr) :
    (GET req env).amazonCalled = false ∧
    (GET req env).bestbuyCalled = false ∧
    (GET req env).status = 200 ∧
    (GET req env).body = Body.payload [] false false "LIVE" ∧
    (GET req env).l1After =
      l1set env.l1 (makeCacheKey q (resolvePage req.pageParam) (jsToLower s))
        { expires := env.now + CACHE_TTL_MS, data := emptyOutcome } ∧
    (GET req env).redisSetArg = none := by
  have htag : resolveProviderTag req.providerParam = jsToLower s := by
    rw [hprov]
    simp [resolveProviderTag, jsOrDefault, hsne]
  have hG := GET_live_eq req env q hq hne hkeys hcold hredis
  rw [htag] at hG
  have hA : (jsToLower s == "amazon" || jsToLower s == "all") = false := by
    simp only [Bool.or_eq_false_iff, beq_eq_false_iff_ne]
    exact ⟨hsa, hsall⟩
  have hB : (jsToLower s == "bestbuy" || jsToLower s == "all") = false := by
    simp only [Bool.or_eq_false_iff, beq_eq_false_iff_ne]
    exact ⟨hsb, hsall⟩
  rw [hG]
  refine ⟨?_, ?_, rfl, ?_, ?_, ?_⟩ <;>
    simp [liveStage, activeOutcomes, mergedPayload, emptyOutcome, hA, hB]

/-- Witness for C10 (amended) at provider "WEIRD". -/
theorem unknown_provider_empty_live_witness :
    (GET { q := some "tv", pageParam := none, providerParam := some "WEIRD" } baseEnv).amazonCalled = false ∧
    (GET { q := some "tv", pageParam := none, providerParam := some "WEIRD" } baseEnv).bestbuyCalled = false ∧
    (GET { q := some "tv", pageParam := none, providerParam := some "WEIRD" } baseEnv).status = 200 ∧
    (GET { q := some "tv", pageParam := none, providerParam := some "WEIRD" } baseEnv).body =
      Body.payload [] false false "LIVE" ∧
    (GET { q := some "tv", pageParam := none, providerParam := some "WEIRD" } baseEnv).l1After =
      l1set baseEnv.l1 (makeCacheKey "tv" (resolvePage (none : Option String)) (jsToLower "WEIRD"))
        { expires := baseEnv.now + CACHE_TTL_MS, data := emptyOutcome } ∧
    (GET { q := some "tv", pageParam := none, providerParam := some "WEIRD" } baseEnv).redisSetArg = none :=
  unknown_provider_empty_live
    { q := some "tv", pageParam := none, providerParam := some "WEIRD" } baseEnv "tv" "WEIRD"
    rfl (by decide) rfl (by decide) (by decide) (by decide) (by decide)
    (Or.inl rfl) rfl (Or.inl rfl)
